import Mathlib

/-!
Verification of the Sentinel-2 marine composite pipeline
(`src/02-gee-scripts/utils.js` of eatlas/CS_AIMS_Sentinel-2-marine_V0).

The JavaScript source is shallowly embedded: pure per-pixel band arithmetic
becomes functions over `ℚ`-valued pixel records, the Earth Engine string
helpers become functions over `List Char`, masks become `Bool`-valued pixel
functions, and the Earth Engine spatial operators (focal min/max, reproject,
directional distance transform), which are library code external to the
repository, are abstracted as parameters.
-/

namespace S2Marine

/-! ## JavaScript string primitives

`String.prototype.lastIndexOf` and `String.prototype.substr`, as used by
`s2_composite_display_and_export` (utils.js lines 71-98) to extract the UTM
tile code and the year-month token from a Sentinel-2 image id.
-/

/-- Whether `pat` occurs in `s` starting at position `i` (JS semantics of a
substring match at an index). -/
def matchesAt (s pat : List Char) (i : ℕ) : Bool :=
  pat.isPrefixOf (s.drop i)

/-- JS `s.lastIndexOf(pat)`: the largest index at which `pat` occurs in `s`,
or `-1` when it does not occur. -/
def jsLastIndexOf (s pat : List Char) : ℤ :=
  match ((List.range (s.length + 1)).filter (fun i => matchesAt s pat i)).reverse with
  | [] => -1
  | i :: _ => (i : ℕ)

/-- JS `s.substr(start)`: the suffix from `start`; a negative `start` counts
from the end of the string. -/
def jsSubstr (s : List Char) (start : ℤ) : List Char :=
  s.drop (if start < 0 then (max (s.length + start) 0).toNat else start.toNat)

/-- JS `s.substr(start, len)`: `len` characters from `start`. -/
def jsSubstrLen (s : List Char) (start : ℤ) (len : ℕ) : List Char :=
  (jsSubstr s start).take len

/-- utils.js lines 71-76: UTM tile-code extraction,
`id.substr(id.lastIndexOf("_T") + 2)`. -/
def utmTileOfId (id : List Char) : List Char :=
  jsSubstr id (jsLastIndexOf id ['_', 'T'] + 2)

/-- utils.js lines 93-98: year-month token extraction,
`id.substr(id.lastIndexOf("S2/") + 3, 6)`. -/
def tileDateOfId (id : List Char) : List Char :=
  jsSubstrLen id (jsLastIndexOf id ['S', '2', '/'] + 3) 6

/-! ## Composite band schema

utils.js lines 136-150: the composite is reduced with
`ee.Reducer.percentile([50],["p50"])` and then renamed with an explicit band
list; the multi-image branch (cloud masking applied) uses a 17-band list
ending in "cloudmask", the single-image branch (masking skipped) a 16-band
list.
-/

/-- utils.js lines 142-143: rename list of the cloud-masked branch. -/
def compositeRenameMasked : List String :=
  ["B1", "B2", "B3", "B4", "B5", "B6", "B7", "B8",
   "B8A", "B9", "B10", "B11", "B12", "QA10", "QA20", "QA60", "cloudmask"]

/-- utils.js lines 148-149: rename list of the single-image branch. -/
def compositeRenameUnmasked : List String :=
  ["B1", "B2", "B3", "B4", "B5", "B6", "B7", "B8",
   "B8A", "B9", "B10", "B11", "B12", "QA10", "QA20", "QA60"]

/-- utils.js lines 137-150: the output band schema of the composite.
Cloud masking is applied exactly when the collection has more than one
image (`applyCloudMask = imageIds.length > 1`), and each branch renames the
reduced image with its explicit band list. -/
def compositeBandNames (imageIds : List String) : List String :=
  if imageIds.length > 1 then compositeRenameMasked else compositeRenameUnmasked

/-! ## Sun-glint correction

`removeSunGlint` (utils.js lines 395-518) is pure per-pixel band arithmetic,
so it is embedded as a function on one multi-band pixel. Reflectance values
are rationals in the native 0-10000 range.
-/

/-- One pixel of a Sentinel-2 image: the 13 spectral bands plus the three QA
bands (utils.js rename lists, lines 142-149). -/
structure S2Pixel where
  B1 : ℚ
  B2 : ℚ
  B3 : ℚ
  B4 : ℚ
  B5 : ℚ
  B6 : ℚ
  B7 : ℚ
  B8 : ℚ
  B8A : ℚ
  B9 : ℚ
  B10 : ℚ
  B11 : ℚ
  B12 : ℚ
  QA10 : ℚ
  QA20 : ℚ
  QA60 : ℚ
deriving DecidableEq

/-- Earth Engine `image.clamp(lo, hi)`: values below `lo` become `lo`,
values above `hi` become `hi`. -/
def eeClamp (x lo hi : ℚ) : ℚ := min (max x lo) hi

/-- utils.js lines 421-424: the shallow-water-corrected infrared proxy
`((B8 - B11) - 200).clamp(0, 10000)`. -/
def shallowCorrect (p : S2Pixel) : ℚ := eeClamp ((p.B8 - p.B11) - 200) 0 10000

/-- utils.js line 425: the raw glint estimate `B8 - shallowCorrectImg`. -/
def rawSunGlint (p : S2Pixel) : ℚ := p.B8 - shallowCorrect p

/-- utils.js line 456: the land/sea threshold on B8. -/
def LAND_THRES : ℚ := 600

/-- utils.js line 467: the constant atmospheric offset applied over land. -/
def LAND_ATMOS_OFFSET : ℚ := 280

/-- utils.js line 490: `rawSunGlint.where(b8.gt(LAND_THRES), LAND_ATMOS_OFFSET)`,
the per-pixel sun-glint correction. -/
def sunglintCorr (p : S2Pixel) : ℚ :=
  if p.B8 > LAND_THRES then LAND_ATMOS_OFFSET else rawSunGlint p

/-- utils.js lines 511-517: subtract the scaled correction from the four
visible bands (B1 and B2 scaled by 0.75, B3 by 0.9, B4 by 1), overwriting
those bands and passing every other band through unchanged. -/
def removeSunGlint (p : S2Pixel) : S2Pixel :=
  { p with
    B1 := p.B1 - sunglintCorr p * 0.75
    B2 := p.B2 - sunglintCorr p * 0.75
    B3 := p.B3 - sunglintCorr p * 0.9
    B4 := p.B4 - sunglintCorr p * 1 }

/-! ## Contrast enhancement (utils.js lines 767-769) -/

/-- utils.js lines 767-769: `image.subtract(min).divide(max-min).clamp(0,1)
.pow(1/gamma)`. The real-exponent power forces a real-valued model. -/
noncomputable def contrastEnhance (v mn mx gamma : ℝ) : ℝ :=
  Real.rpow (min (max ((v - mn) / (mx - mn)) 0) 1) (1 / gamma)

/-! ## Export quantization (utils.js line 174)

`final_composite.multiply(254).add(1).toUint8()`; masked (no-data) pixels
are written as 0 in the 8-bit export (utils.js comment, lines 171-173).
A pixel of the graded image is `none` when masked, `some v` otherwise.
-/

/-- Truncation toward zero, as performed by the Earth Engine integer casts on
the fractional part. -/
def truncQ (q : ℚ) : ℤ := if 0 ≤ q then ⌊q⌋ else ⌈q⌉

/-- Earth Engine `toUint8`: truncate and saturate to the 0-255 range. -/
def toUint8 (q : ℚ) : ℤ := min (max (truncQ q) 0) 255

/-- utils.js line 174 plus the export no-data convention: a valid graded
value `v` becomes `toUint8 (v * 254 + 1)`; a masked pixel becomes 0. -/
def quantizeExport (v : Option ℚ) : ℤ :=
  match v with
  | none => 0
  | some q => toUint8 (q * 254 + 1)

/-! ## Median reduction (utils.js line 141)

Modelled from the spec: the reduction `ee.Reducer.percentile([50],["p50"])`
is Earth Engine library code, not part of this repository; the spec
describes it as the pixelwise 50th percentile (median) of the valid samples.
At one pixel the stack of samples is a list (in tile order) and the median
is the middle element of the sorted list.
-/

/-- Modelled from the spec: pixelwise 50th percentile of the per-pixel
samples. The implementation of `ee.Reducer.percentile` is not in the
repository; the spec calls it the median, the middle element of the sorted
sample list ("the median of per-pixel samples 100, 200, 300 is 200"). -/
def percentile50 (samples : List ℤ) : Option ℤ :=
  (List.insertionSort (· ≤ ·) samples)[(samples.length - 1) / 2]?

/-! ## Cloud and shadow mask (utils.js lines 674-759)

`get_s2_cloud_shadow_mask` mixes per-pixel band arithmetic with Earth Engine
spatial operators. The spatial operators (`focal_min`, `focal_max`,
`reproject`, `directionalDistanceTransform`) are Earth Engine library code
external to the repository, so they are abstracted as parameters over an
abstract pixel-location type `α`; everything else is embedded from the
source.
-/

/-- The Earth Engine spatial operators used by `get_s2_cloud_shadow_mask`,
abstracted over the pixel-location type `α`. `focalMin`/`focalMax` take a
radius in working pixels; `reprojectMask` takes a working scale in metres;
`ddtMask` is `directionalDistanceTransform` followed by
`.select('distance').mask()`, taking the azimuth in degrees and the maximum
distance in working pixels. -/
structure GEEOps (α : Type) where
  focalMin : (α → Bool) → ℚ → (α → Bool)
  focalMax : (α → Bool) → ℚ → (α → Bool)
  reprojectMask : (α → Bool) → ℤ → (α → Bool)
  ddtMask : (α → Bool) → ℚ → ℚ → (α → Bool)

/-- The per-pixel data of one Sentinel-2 image that
`get_s2_cloud_shadow_mask` reads: the B8 band, the joined s2cloudless cloud
probability (0-100), and the scene's mean solar azimuth angle. -/
structure S2CloudImg (α : Type) where
  B8 : α → ℚ
  probability : α → ℚ
  MEAN_SOLAR_AZIMUTH_ANGLE : ℚ

/-- utils.js line 675. -/
def SR_BAND_SCALE : ℚ := 10000

/-- utils.js line 676. -/
def NIR_DRK_THRESH : ℚ := 0.15

/-- utils.js line 686: `img.select('B8').lt(NIR_DRK_THRESH * SR_BAND_SCALE)`. -/
def dark_pixels {α : Type} (img : S2CloudImg α) : α → Bool :=
  fun p => decide (img.B8 p < NIR_DRK_THRESH * SR_BAND_SCALE)

/-- utils.js line 689: `90 - MEAN_SOLAR_AZIMUTH_ANGLE`. -/
def shadow_azimuth {α : Type} (img : S2CloudImg α) : ℚ :=
  90 - img.MEAN_SOLAR_AZIMUTH_ANGLE

/-- utils.js lines 692-693: threshold the cloud-probability layer. -/
def is_cloud {α : Type} (img : S2CloudImg α) (cloud_prob_thresh : ℚ) : α → Bool :=
  fun p => decide (img.probability p > cloud_prob_thresh)

/-- utils.js line 711: `Math.max(Math.round(erosion/4/10)*10, 20)`, the
working scale of the erosion/dilation (and, line 747, of the final buffer).
JS `Math.round` rounds half up, which is Mathlib's `round`. -/
def filterScale (dist : ℚ) : ℤ := max (round (dist / 4 / 10) * 10) 20

/-- utils.js lines 695-722: erode then dilate the cloud mask at the working
scale when `erosion > 0`, otherwise pass the raw cloud mask through. -/
def is_cloud_erosion_dilation {α : Type} (ops : GEEOps α) (img : S2CloudImg α)
    (cloud_prob_thresh erosion : ℚ) : α → Bool :=
  if erosion > 0 then
    ops.reprojectMask
      (ops.focalMax (ops.focalMin (is_cloud img cloud_prob_thresh) (erosion / filterScale erosion))
        (erosion / filterScale erosion))
      (filterScale erosion)
  else is_cloud img cloud_prob_thresh

/-- utils.js lines 727-732: project the cloud mask along the shadow
direction for `cloud_proj_dist * 10` working pixels at a 100 m working
scale, keeping the mask of the resulting distance band. -/
def cloud_proj {α : Type} (ops : GEEOps α) (img : S2CloudImg α)
    (cloud_prob_thresh erosion cloud_proj_dist : ℚ) : α → Bool :=
  ops.reprojectMask
    (ops.ddtMask (is_cloud_erosion_dilation ops img cloud_prob_thresh erosion)
      (shadow_azimuth img) (cloud_proj_dist * 10))
    100

/-- utils.js line 735: `cloud_proj.multiply(dark_pixels)`, the intersection
of the projected mask with the dark pixels. The source computes this value
but never uses it. -/
def shadows {α : Type} (ops : GEEOps α) (img : S2CloudImg α)
    (cloud_prob_thresh erosion cloud_proj_dist : ℚ) : α → Bool :=
  fun p => cloud_proj ops img cloud_prob_thresh erosion cloud_proj_dist p
    && dark_pixels img p

/-- utils.js line 742: `is_cloud_or_shadow = cloud_proj` — the pre-buffer
mask is the projected cloud mask itself (the commented-out alternative
`is_cloud.add(shadows).gt(0)` is not what runs). -/
def is_cloud_or_shadow {α : Type} (ops : GEEOps α) (img : S2CloudImg α)
    (cloud_prob_thresh erosion cloud_proj_dist : ℚ) : α → Bool :=
  cloud_proj ops img cloud_prob_thresh erosion cloud_proj_dist

/-- utils.js lines 674-758: the full cloud/shadow mask — the pre-buffer mask
dilated by `buffer / filterScale buffer` working pixels at the buffer
working scale. -/
def get_s2_cloud_shadow_mask {α : Type} (ops : GEEOps α) (img : S2CloudImg α)
    (cloud_prob_thresh erosion cloud_proj_dist buffer : ℚ) : α → Bool :=
  ops.reprojectMask
    (ops.focalMax (is_cloud_or_shadow ops img cloud_prob_thresh erosion cloud_proj_dist)
      (buffer / filterScale buffer))
    (filterScale buffer)

/-! ### A concrete two-pixel scene for the shadow-mask claims

The location type is `Bool`: pixel `true` carries a cloud, pixel `false` is
cloud-free sunlit land 200 m further along the shadow bearing. The spatial
operators are instantiated for that geometry: the 4 km-capable projection
(0.4 km at 10 Earth Engine working pixels of 100 m) reaches the neighbouring
pixel, while the 150 m buffer dilation (3.75 working pixels of 40 m) does
not span the 200 m pitch, and the reprojections change nothing on a
two-pixel grid.
-/

/-- Spatial operators on the two-pixel scene: projection reaches the
neighbouring pixel, focal operators with sub-pitch radii and reprojection
act as the identity. -/
def demoOps : GEEOps Bool :=
  { focalMin := fun m _ => m
    focalMax := fun m _ => m
    reprojectMask := fun m _ => m
    ddtMask := fun m _ _ => fun p => m p || m (!p) }

/-- The two-pixel scene: pixel `true` has cloud probability 90 and a bright
B8 of 3000; pixel `false` is cloud-free (probability 10) sunlit land with
B8 = 2000, well above the dark threshold of 1500. -/
def demoImg : S2CloudImg Bool :=
  { B8 := fun p => if p then 3000 else 2000
    probability := fun p => if p then 90 else 10
    MEAN_SOLAR_AZIMUTH_ANGLE := 130 }

/-! ## Colour grading (utils.js lines 818-893)

`bake_s2_colour_grading` dispatches on the style name to a fixed recipe of
source bands and contrast parameters; the unknown-style branch prints an
error and leaves the result undefined. The dispatch is embedded as a
function returning the list of (band, min, max, gamma) contrast recipes of
the style, `none` for the unknown-style branch.
-/

/-- utils.js lines 825-886: the style dispatch of `bake_s2_colour_grading`.
Each known style yields its per-band `contrastEnhance` parameters
(band, min, max, gamma) in source order; an unknown style prints an error
and produces no image (`none`). -/
def bakeStyleRecipe (colourGradeStyle : String) : Option (List (String × ℚ × ℚ × ℚ)) :=
  if colourGradeStyle = "TrueColour" then
    some [("B4", 0.013, 0.3, 2.2), ("B3", 0.025, 0.31, 2.2), ("B2", 0.045, 0.33, 2.2)]
  else if colourGradeStyle = "DeepMarine" then
    some [("B4", 0.013, 0.2, 2.2), ("B3", 0.033, 0.12, 2.5), ("B2", 0.07, 0.13, 2.5)]
  else if colourGradeStyle = "DeepFalse" then
    some [("B3", 0.034, 0.175, 2.5), ("B2", 0.071, 0.175, 2.5), ("B1", 0.103, 0.177, 2.5)]
  else if colourGradeStyle = "ReefTop" then
    some [("B4", 0.018, 0.019, 1)]
  else if colourGradeStyle = "Shallow" then
    some [("B5", 0.02, 0.3, 2), ("B8", 0.02, 0.3, 2), ("B11", 0.02, 0.3, 2)]
  else if colourGradeStyle = "DeepFeature" then
    some [("B3", 0.027, 0.17, 4), ("B2", 0.06, 0.15, 3.3)]
  else
    none

/-- utils.js lines 155-204: the per-style loop of
`s2_composite_display_and_export`. Each style is graded and then the 8-bit
conversion `final_composite.multiply(254).add(1).toUint8()` runs
unconditionally on the result; when the grader returned no image (unknown
style) that member access throws, so the loop stops there: the styles
already processed keep their outputs and the remaining styles are never
processed. Returns the recipes of the styles that produced output, paired
with the error that stopped the batch, if any. -/
def processColourGrades (colourGrades : List String) :
    List (String × List (String × ℚ × ℚ × ℚ)) × Option String :=
  match colourGrades with
  | [] => ([], none)
  | style :: rest =>
    match bakeStyleRecipe style with
    | none => ([], some ("Error: unknown colourGradeStyle: " ++ style))
    | some recipe =>
      let result := processColourGrades rest
      ((style, recipe) :: result.1, result.2)

/-! ## Theorems -/

/-- C9 (counterexample): on the identifier
`SENSOR/20170812T003031_20170812T003034_T55KDV` the tile-code extraction
does yield "55KDV", but the year-month extraction, whose fixed marker in the
source is "S2/" (absent from this identifier), yields "NSOR/2", not
"201708" as the claim states. -/
theorem tileDate_marker_mismatch :
    utmTileOfId "SENSOR/20170812T003031_20170812T003034_T55KDV".toList = "55KDV".toList ∧
    tileDateOfId "SENSOR/20170812T003031_20170812T003034_T55KDV".toList ≠ "201708".toList ∧
    tileDateOfId "SENSOR/20170812T003031_20170812T003034_T55KDV".toList = "NSOR/2".toList := by
  decide

/-- C9 (amended): tile-code extraction yields "55KDV" on the claim's
identifier, and on an identifier of the form the source actually consumes
(`COPERNICUS/S2/...`, containing the "S2/" marker) the tile-code and
year-month extractions yield "55KDV" and "201708". -/
theorem id_parsing_bit_exact :
    utmTileOfId "SENSOR/20170812T003031_20170812T003034_T55KDV".toList = "55KDV".toList ∧
    utmTileOfId "COPERNICUS/S2/20170812T003031_20170812T003034_T55KDV".toList = "55KDV".toList ∧
    tileDateOfId "COPERNICUS/S2/20170812T003031_20170812T003034_T55KDV".toList
      = "201708".toList := by
  decide

/-- C1 (counterexample): a single-image collection does not yield the same
band schema as a multi-image masked collection; the masked schema has a
17th band "cloudmask". -/
theorem composite_band_schema_not_uniform :
    compositeBandNames ["COPERNICUS/S2/20170812T003031_20170812T003034_T55KDV"] ≠
    compositeBandNames ["COPERNICUS/S2/20170812T003031_20170812T003034_T55KDV",
      "COPERNICUS/S2/20180604T002711_20180604T002708_T55KDV"] := by
  decide

/-- C1 (amended): the composite band schema is fixed per path and matches
the declared rename list of that path; every multi-image (masked) collection
yields the 17-band list and every single-image collection the 16-band list,
which is exactly the masked list without its trailing "cloudmask" band. -/
theorem composite_band_schema_two_paths (ids mids : List String)
    (h1 : ids.length ≤ 1) (h2 : 1 < mids.length) :
    compositeBandNames mids = compositeRenameMasked ∧
    compositeBandNames ids = compositeRenameUnmasked ∧
    compositeBandNames mids = compositeBandNames ids ++ ["cloudmask"] ∧
    (compositeBandNames ids).length = 16 ∧
    (compositeBandNames mids).length = 17 := by
  have hm : compositeBandNames mids = compositeRenameMasked := by
    simp only [compositeBandNames]
    rw [if_pos h2]
  have hs : compositeBandNames ids = compositeRenameUnmasked := by
    simp only [compositeBandNames]
    rw [if_neg (by omega)]
  refine ⟨hm, hs, ?_, ?_, ?_⟩
  · rw [hm, hs]; decide
  · rw [hs]; decide
  · rw [hm]; decide

/-- C1 (witness for the amended theorem at concrete collections). -/
theorem composite_band_schema_two_paths_witness :
    (["a"] : List String).length ≤ 1 ∧ 1 < (["a", "b"] : List String).length ∧
    (compositeBandNames ["a", "b"] = compositeRenameMasked ∧
     compositeBandNames ["a"] = compositeRenameUnmasked ∧
     compositeBandNames ["a", "b"] = compositeBandNames ["a"] ++ ["cloudmask"] ∧
     (compositeBandNames ["a"]).length = 16 ∧
     (compositeBandNames ["a", "b"]).length = 17) :=
  ⟨by decide, by decide,
    composite_band_schema_two_paths ["a"] ["a", "b"] (by decide) (by decide)⟩

/-- C6: `removeSunGlint` modifies only the visible bands B1-B4; every other
band of the output tile equals the corresponding band of the input. -/
theorem removeSunGlint_frame (p : S2Pixel) :
    (removeSunGlint p).B5 = p.B5 ∧ (removeSunGlint p).B6 = p.B6 ∧
    (removeSunGlint p).B7 = p.B7 ∧ (removeSunGlint p).B8 = p.B8 ∧
    (removeSunGlint p).B8A = p.B8A ∧ (removeSunGlint p).B9 = p.B9 ∧
    (removeSunGlint p).B10 = p.B10 ∧ (removeSunGlint p).B11 = p.B11 ∧
    (removeSunGlint p).B12 = p.B12 ∧ (removeSunGlint p).QA10 = p.QA10 ∧
    (removeSunGlint p).QA20 = p.QA20 ∧ (removeSunGlint p).QA60 = p.QA60 :=
  ⟨rfl, rfl, rfl, rfl, rfl, rfl, rfl, rfl, rfl, rfl, rfl, rfl⟩

/-- C10: the sun-glint subtraction is not clamped below at zero: on a dark
water pixel with B2 = 0, B8 = 500, B11 = 0 the correction is 200 and the
output blue band is -150, outside the native 0-10000 range. -/
theorem removeSunGlint_negative_output :
    (removeSunGlint ⟨0, 0, 0, 0, 0, 0, 0, 500, 0, 0, 0, 0, 0, 0, 0, 0⟩).B2 = -150 ∧
    (removeSunGlint ⟨0, 0, 0, 0, 0, 0, 0, 500, 0, 0, 0, 0, 0, 0, 0, 0⟩).B2 < 0 := by
  constructor <;>
    · simp only [removeSunGlint, sunglintCorr, rawSunGlint, shallowCorrect, eeClamp,
        LAND_THRES, LAND_ATMOS_OFFSET]
      norm_num

/-- C5: the sun-glint correction equals `B8 - clamp((B8 - B11) - 200, 0, 10000)`
wherever B8 does not exceed the land threshold 600, equals the constant land
atmospheric offset 280 wherever B8 exceeds it, and is subtracted from the
visible bands scaled per band: B4 at full strength 1, B3 at 0.9, and B2 at
0.75. -/
theorem removeSunGlint_correction (p : S2Pixel) :
    (p.B8 ≤ LAND_THRES → sunglintCorr p = p.B8 - eeClamp ((p.B8 - p.B11) - 200) 0 10000) ∧
    (p.B8 > LAND_THRES → sunglintCorr p = LAND_ATMOS_OFFSET) ∧
    (removeSunGlint p).B4 = p.B4 - sunglintCorr p * 1 ∧
    (removeSunGlint p).B3 = p.B3 - sunglintCorr p * 0.9 ∧
    (removeSunGlint p).B2 = p.B2 - sunglintCorr p * 0.75 := by
  refine ⟨fun h => ?_, fun h => ?_, rfl, rfl, rfl⟩
  · simp only [sunglintCorr, rawSunGlint, shallowCorrect]
    rw [if_neg (not_lt.mpr h)]
  · simp only [sunglintCorr]
    rw [if_pos h]

/-- C5 (witness): the correction on a water pixel with B8 = 500, B11 = 0 is
500 - 300 = 200, and on a land pixel with B8 = 1000 it is 280. -/
theorem removeSunGlint_correction_witness :
    (S2Pixel.mk 0 0 0 0 0 0 0 500 0 0 0 0 0 0 0 0).B8 ≤ LAND_THRES ∧
    (S2Pixel.mk 0 0 0 0 0 0 0 1000 0 0 0 0 0 0 0 0).B8 > LAND_THRES ∧
    sunglintCorr (S2Pixel.mk 0 0 0 0 0 0 0 500 0 0 0 0 0 0 0 0) =
      500 - eeClamp ((500 - 0) - 200) 0 10000 ∧
    sunglintCorr (S2Pixel.mk 0 0 0 0 0 0 0 1000 0 0 0 0 0 0 0 0) = LAND_ATMOS_OFFSET := by
  refine ⟨by norm_num [LAND_THRES], by norm_num [LAND_THRES], ?_, ?_⟩
  · exact (removeSunGlint_correction (S2Pixel.mk 0 0 0 0 0 0 0 500 0 0 0 0 0 0 0 0)).1
      (by norm_num [LAND_THRES])
  · exact (removeSunGlint_correction (S2Pixel.mk 0 0 0 0 0 0 0 1000 0 0 0 0 0 0 0 0)).2.1
      (by norm_num [LAND_THRES])

/-- C4: for a graded value v in [0,1] the 8-bit export value is the
truncation of `v * 254 + 1`, so 0 maps to 1, 1 maps to 255, a no-data pixel
maps to 0, and no valid value can produce 0. -/
theorem quantizeExport_spec (v : ℚ) (h0 : 0 ≤ v) (h1 : v ≤ 1) :
    quantizeExport (some v) = truncQ (v * 254 + 1) ∧
    1 ≤ quantizeExport (some v) ∧ quantizeExport (some v) ≤ 255 ∧
    quantizeExport (some 0) = 1 ∧ quantizeExport (some 1) = 255 ∧
    quantizeExport none = 0 := by
  have hq : (1 : ℚ) ≤ v * 254 + 1 := by nlinarith
  have hq255 : v * 254 + 1 ≤ 255 := by nlinarith
  have htr : truncQ (v * 254 + 1) = ⌊v * 254 + 1⌋ := by
    simp only [truncQ]
    rw [if_pos (by linarith)]
  have hfl1 : (1 : ℤ) ≤ ⌊v * 254 + 1⌋ := by
    exact_mod_cast Int.le_floor.mpr (by exact_mod_cast hq)
  have hfl255 : ⌊v * 254 + 1⌋ ≤ 255 := by
    have := Int.floor_le_floor hq255
    simpa using this
  have hmain : quantizeExport (some v) = truncQ (v * 254 + 1) := by
    simp only [quantizeExport, toUint8, htr]
    rw [max_eq_left (by linarith), min_eq_left hfl255]
  refine ⟨hmain, ?_, ?_, ?_, ?_, rfl⟩
  · rw [hmain, htr]; exact hfl1
  · rw [hmain, htr]; exact hfl255
  · simp only [quantizeExport, toUint8, truncQ]
    norm_num
  · simp only [quantizeExport, toUint8, truncQ]
    rw [if_pos (by norm_num)]
    rw [show ((1 : ℚ) * 254 + 1) = ((255 : ℤ) : ℚ) by norm_num, Int.floor_intCast]
    decide

/-- C4 (witness): the quantization facts instantiated at v = 1/2, where the
export value is the truncation of 128. -/
theorem quantizeExport_spec_witness :
    (0 : ℚ) ≤ 1 / 2 ∧ (1 / 2 : ℚ) ≤ 1 ∧
    (quantizeExport (some (1 / 2)) = truncQ ((1 / 2) * 254 + 1) ∧
     1 ≤ quantizeExport (some (1 / 2)) ∧ quantizeExport (some (1 / 2)) ≤ 255 ∧
     quantizeExport (some 0) = 1 ∧ quantizeExport (some 1) = 255 ∧
     quantizeExport none = 0) :=
  ⟨by norm_num, by norm_num, quantizeExport_spec (1 / 2) (by norm_num) (by norm_num)⟩

/-- C3 (counterexample): in the batch `["Foo", "TrueColour"]` the unknown
style "Foo" makes the grader return no image; the caller then applies the
8-bit conversion to that missing image, which aborts the batch, so the valid
style "TrueColour" produces no output either — contradicting the claim that
any valid style in the same batch still produces its output. -/
theorem unknown_style_aborts_batch :
    (bakeStyleRecipe "TrueColour").isSome = true ∧
    (processColourGrades ["Foo", "TrueColour"]).1 = [] ∧
    (processColourGrades ["Foo", "TrueColour"]).2 =
      some "Error: unknown colourGradeStyle: Foo" := by
  refine ⟨rfl, rfl, rfl⟩

/-- C3 (amended): an unknown style makes the grader report an
invalid-configuration error and produce no image for that style; valid
styles processed before it in the batch keep their outputs, but the batch
then stops at the unknown style, so styles after it produce nothing. -/
theorem unknown_style_error_and_outputs (pre post : List String) (s : String)
    (hpre : ∀ t ∈ pre, (bakeStyleRecipe t).isSome = true)
    (hs : bakeStyleRecipe s = none) :
    (processColourGrades (pre ++ s :: post)).1.map Prod.fst = pre ∧
    (processColourGrades (pre ++ s :: post)).2 =
      some ("Error: unknown colourGradeStyle: " ++ s) := by
  induction pre with
  | nil =>
    simp [processColourGrades, hs]
  | cons t ts ih =>
    have ht : (bakeStyleRecipe t).isSome = true := hpre t (List.mem_cons_self t ts)
    obtain ⟨r, hr⟩ := Option.isSome_iff_exists.mp ht
    have hts : ∀ u ∈ ts, (bakeStyleRecipe u).isSome = true := by
      intro u hu
      exact hpre u (List.mem_cons_of_mem t hu)
    obtain ⟨ih1, ih2⟩ := ih hts
    refine ⟨?_, ?_⟩
    · simp only [List.cons_append, processColourGrades, hr, List.map_cons, List.append_eq]
      rw [ih1]
    · simp only [List.cons_append, processColourGrades, hr, List.append_eq]
      exact ih2

/-- C3 (witness for the amended theorem): with the batch
`["TrueColour", "Foo", "DeepMarine"]` the output list is exactly
`["TrueColour"]` and the reported error names "Foo". -/
theorem unknown_style_error_and_outputs_witness :
    (bakeStyleRecipe "TrueColour").isSome = true ∧
    bakeStyleRecipe "Foo" = none ∧
    ((processColourGrades ["TrueColour", "Foo", "DeepMarine"]).1.map Prod.fst
        = ["TrueColour"] ∧
      (processColourGrades ["TrueColour", "Foo", "DeepMarine"]).2 =
        some ("Error: unknown colourGradeStyle: " ++ "Foo")) :=
  ⟨rfl, rfl,
    unknown_style_error_and_outputs ["TrueColour"] ["DeepMarine"] "Foo"
      (by intro t ht; simp only [List.mem_singleton] at ht; subst ht; rfl) rfl⟩

/-- C7: for min < max and gamma > 0 the contrast curve maps min to 0 and
max to 1, and is monotonically non-decreasing on [min, max]. -/
theorem contrastEnhance_curve (mn mx gamma : ℝ) (hlt : mn < mx) (hg : 0 < gamma) :
    contrastEnhance mn mn mx gamma = 0 ∧
    contrastEnhance mx mn mx gamma = 1 ∧
    ∀ x y, mn ≤ x → x ≤ y → y ≤ mx →
      contrastEnhance x mn mx gamma ≤ contrastEnhance y mn mx gamma := by
  have hdpos : (0 : ℝ) < mx - mn := by linarith
  refine ⟨?_, ?_, ?_⟩
  · simp only [contrastEnhance, sub_self, zero_div]
    rw [max_self 0, min_eq_left (by norm_num)]
    exact Real.zero_rpow (by positivity)
  · simp only [contrastEnhance]
    rw [div_self (ne_of_gt hdpos), max_eq_left (by norm_num), min_self 1]
    exact Real.one_rpow _
  · intro x y _ hxy _
    simp only [contrastEnhance]
    have hclamp_nonneg : (0 : ℝ) ≤ min (max ((x - mn) / (mx - mn)) 0) 1 :=
      le_min (le_max_right _ 0) (by norm_num)
    have hinner : (x - mn) / (mx - mn) ≤ (y - mn) / (mx - mn) := by
      gcongr
    have hclamp_mono : min (max ((x - mn) / (mx - mn)) 0) 1 ≤
        min (max ((y - mn) / (mx - mn)) 0) 1 :=
      min_le_min (max_le_max hinner le_rfl) le_rfl
    exact Real.rpow_le_rpow hclamp_nonneg hclamp_mono (by positivity)

/-- C7 (witness): the contrast-curve properties instantiated at
(min, max, gamma) = (0, 1, 2), with monotonicity instantiated at the pair
(1/4, 1/2). -/
theorem contrastEnhance_curve_witness :
    (0 : ℝ) < 1 ∧ (0 : ℝ) < 2 ∧
    contrastEnhance 0 0 1 2 = 0 ∧ contrastEnhance 1 0 1 2 = 1 ∧
    contrastEnhance (1 / 4) 0 1 2 ≤ contrastEnhance (1 / 2) 0 1 2 :=
  ⟨by norm_num, by norm_num,
    (contrastEnhance_curve 0 1 2 (by norm_num) (by norm_num)).1,
    (contrastEnhance_curve 0 1 2 (by norm_num) (by norm_num)).2.1,
    (contrastEnhance_curve 0 1 2 (by norm_num) (by norm_num)).2.2 (1 / 4) (1 / 2)
      (by norm_num) (by norm_num) (by norm_num)⟩

/-- C8: the pixelwise 50th-percentile (median) reduction is invariant under
any permutation of the input tile order, and the median of the per-pixel
samples 100, 200, 300 is 200. -/
theorem percentile50_perm_invariant :
    (∀ l m : List ℤ, l.Perm m → percentile50 l = percentile50 m) ∧
    percentile50 [100, 200, 300] = some 200 := by
  constructor
  · intro l m h
    have hsort : List.insertionSort (· ≤ ·) l = List.insertionSort (· ≤ ·) m :=
      List.eq_of_perm_of_sorted
        (((List.perm_insertionSort _ l).trans h).trans (List.perm_insertionSort _ m).symm)
        (List.sorted_insertionSort _ l) (List.sorted_insertionSort _ m)
    simp only [percentile50, hsort, h.length_eq]
  · decide

/-- C8 (witness): permutation invariance applied to the concrete reordering
[300, 100, 200] of [100, 200, 300]. -/
theorem percentile50_perm_invariant_witness :
    ([300, 100, 200] : List ℤ).Perm [100, 200, 300] ∧
    percentile50 [300, 100, 200] = percentile50 [100, 200, 300] :=
  ⟨by decide, percentile50_perm_invariant.1 [300, 100, 200] [100, 200, 300] (by decide)⟩

/-- C2: on the two-pixel scene, the cloud-free sunlit-land pixel is not
dark (B8 = 2000 is above the 1500 threshold) and not cloud, the projected
cloud mask covers it, the dark-pixel intersection `shadows` excludes it —
yet both the pre-buffer mask (`is_cloud_or_shadow`, which the source sets to
`cloud_proj` rather than to `is_cloud.add(shadows).gt(0)`) and the final
buffered mask include it, contradicting the claim and the function's own
documented algorithm (steps 6-7 of its doc comment). -/
theorem cloud_shadow_mask_keeps_bright_projected_pixel :
    is_cloud demoImg 40 false = false ∧
    dark_pixels demoImg false = false ∧
    cloud_proj demoOps demoImg 40 0 (2 / 5) false = true ∧
    shadows demoOps demoImg 40 0 (2 / 5) false = false ∧
    (is_cloud demoImg 40 false || shadows demoOps demoImg 40 0 (2 / 5) false) = false ∧
    is_cloud_or_shadow demoOps demoImg 40 0 (2 / 5) false = true ∧
    get_s2_cloud_shadow_mask demoOps demoImg 40 0 (2 / 5) 150 false = true := by
  have hcloud : is_cloud demoImg 40 false = false := by
    simp only [is_cloud, demoImg, if_neg Bool.false_ne_true, decide_eq_false_iff_not, not_lt]
    norm_num
  have hcloudT : is_cloud demoImg 40 true = true := by
    simp only [is_cloud, demoImg, if_pos rfl, decide_eq_true_eq]
    norm_num
  have hdark : dark_pixels demoImg false = false := by
    simp only [dark_pixels, demoImg, if_neg Bool.false_ne_true, decide_eq_false_iff_not,
      not_lt, NIR_DRK_THRESH, SR_BAND_SCALE]
    norm_num
  have hice : is_cloud_erosion_dilation demoOps demoImg 40 0 = is_cloud demoImg 40 := by
    simp only [is_cloud_erosion_dilation]
    rw [if_neg (by norm_num)]
  have hproj : cloud_proj demoOps demoImg 40 0 (2 / 5) false = true := by
    have hstep : cloud_proj demoOps demoImg 40 0 (2 / 5) false
        = (is_cloud_erosion_dilation demoOps demoImg 40 0 false
            || is_cloud_erosion_dilation demoOps demoImg 40 0 true) := rfl
    rw [hstep, hice, hcloud, hcloudT]
    rfl
  have hfin : get_s2_cloud_shadow_mask demoOps demoImg 40 0 (2 / 5) 150 false
      = cloud_proj demoOps demoImg 40 0 (2 / 5) false := rfl
  refine ⟨hcloud, hdark, hproj, ?_, ?_, hproj, hfin.trans hproj⟩
  · simp only [shadows, hproj, hdark, Bool.and_false]
  · simp only [shadows, hproj, hdark, Bool.and_false, hcloud, Bool.or_false]

end S2Marine
